import Mathlib

/-!
Verification development for the AVENIS driver (`src/A1/main.cpp`).

The file shallowly embeds the orchestration logic of the program:
`Diffusion<dim>::Solve_Linear_Systam` (lines 92-230), `Setup_System`
(lines 233-270), `OutLogger` (lines 54-63), the face-basis option check
and the outer convergence-study loop of `main` (lines 345-460).

External PETSc calls are modelled by the effect the driver relies on:
each call appends an `Event` to a trace; the solver configuration calls
update explicit `KSPCfg`/`PCCfg` records; the `VecScatter` triple is
modelled by an explicit sequence of indexed writes into a dense local
array; fallible calls draw their return codes from an environment
(`Errs`) so that the driver's error-propagation behaviour (`CHKERRQ`
on the two matrix-assembly calls, discarded codes everywhere else) is
preserved exactly.  Values carried by vectors are rationals.
-/

set_option linter.unusedVariables false

/-- One PETSc / library call performed by `Solve_Linear_Systam`,
in source order (lines 95-227 of `src/A1/main.cpp`). -/
inductive Event where
  | matCreate
  | matSetTypeC
  | matSetSizes
  | matPreallocate
  | matGetOwnershipRange
  | matSetOptionRowOriented
  | matSetOptionSPD
  | vecCreateRHS
  | vecSetOptionRHS
  | vecDuplicateSolution
  | vecDuplicateExact
  | assembleGlobals
  | matAssemblyBegin
  | matAssemblyEnd
  | vecAssemblyBeginRHS
  | vecAssemblyEndRHS
  | vecNormRHS
  | vecAssemblyBeginExact
  | vecAssemblyEndExact
  | kspCreate
  | kspSetTolerances
  | kspSetOperators
  | kspSetTypeC
  | kspSetFromOptions
  | kspGetPC
  | pcSetFromOptions
  | pcSetTypeC
  | pcGamgSetTypeC
  | pcGamgSetNSmooths
  | kspSolve
  | kspGetIterationNumber
  | kspGetConvergedReason
  | vecNormSolution
  | vecAXPY
  | vecNormError
  | vecCreateSeq
  | isCreateFrom
  | isCreateTo
  | vecScatterCreate
  | vecScatterBegin
  | vecScatterEnd
  | vecGetArray
  | calculateInternalUnknowns
  | matDestroy
  | vecDestroyRHS
  | vecDestroyExact
  | vecDestroySolution
  | vecDestroyX
  deriving DecidableEq

/-- One line of the rank-0 `Execution_Time` log stream (the append-only
log written in `Solve_Linear_Systam` and `Setup_System`). -/
inductive LogLine where
  | enteringAssembly
  | finishedAssembly
  | enteringSolver
  | convergedReason (r : Int)
  | numIterations (n : Nat)
  | finishedSolver
  | enteringLocalSolver
  | finishedLocalSolver
  | enteringCounter (rank cycle : Nat)
  | exitedCounter (rank cycle : Nat)
  deriving DecidableEq

/-- The external PETSc options database entries the driver consults:
`-ksp_type`, `-ksp_rtol` (read by `KSPSetFromOptions`, line 155) and
`-pc_type` (read by `PCSetFromOptions`, line 159). -/
structure Opts where
  ksp_type : Option String := none
  ksp_rtol : Option ℚ := none
  pc_type : Option String := none
  deriving DecidableEq

/-- The Krylov-solver configuration accumulated by the calls at
lines 151-155: solver type and relative residual tolerance. -/
structure KSPCfg where
  ktype : Option String
  rtol : Option ℚ
  deriving DecidableEq

/-- The preconditioner configuration accumulated by the calls at
lines 158-163. -/
structure PCCfg where
  ptype : Option String
  gamgAggType : Option String
  gamgNSmooths : Option Nat
  deriving DecidableEq

/-- `KSPCreate` (line 151): fresh solver object, nothing configured. -/
def kspCreateCfg : KSPCfg := { ktype := none, rtol := none }

/-- `KSPSetTolerances(TheSolver, 1E-8, ...)` (line 152). -/
def kspSetTolerancesCfg (c : KSPCfg) (r : ℚ) : KSPCfg := { c with rtol := some r }

/-- `KSPSetType` (line 154). -/
def kspSetTypeCfg (c : KSPCfg) (t : String) : KSPCfg := { c with ktype := some t }

/-- `KSPSetFromOptions` (line 155): any externally supplied solver type
or tolerance overrides the current configuration. -/
def kspSetFromOptionsCfg (o : Opts) (c : KSPCfg) : KSPCfg :=
  { ktype :=
      match o.ksp_type with
      | some t => some t
      | none => c.ktype,
    rtol :=
      match o.ksp_rtol with
      | some r => some r
      | none => c.rtol }

/-- `KSPGetPC` (line 158): the fresh preconditioner object. -/
def pcFreshCfg : PCCfg := { ptype := none, gamgAggType := none, gamgNSmooths := none }

/-- `PCSetFromOptions` (line 159): an externally supplied
preconditioner type overrides the current one. -/
def pcSetFromOptionsCfg (o : Opts) (c : PCCfg) : PCCfg :=
  { c with
    ptype :=
      match o.pc_type with
      | some t => some t
      | none => c.ptype }

/-- `PCSetType` (line 161). -/
def pcSetTypeCfg (c : PCCfg) (t : String) : PCCfg := { c with ptype := some t }

/-- `PCGAMGSetType` (line 162). -/
def pcGamgSetTypeCfg (c : PCCfg) (t : String) : PCCfg := { c with gamgAggType := some t }

/-- `PCGAMGSetNSmooths` (line 163). -/
def pcGamgSetNSmoothsCfg (c : PCCfg) (n : Nat) : PCCfg := { c with gamgNSmooths := some n }

/-- The solver/preconditioner configuration produced by lines 149-163 of
`Solve_Linear_Systam`, in the exact call order of the source:
tolerances, `KSPSetType(KSPCG)`, `KSPSetFromOptions`, `PCSetFromOptions`,
`PCSetType(PCGAMG)`, `PCGAMGSetType(PCGAMGAGG)`, `PCGAMGSetNSmooths(1)`. -/
def configureSolver (o : Opts) : KSPCfg × PCCfg :=
  let k := kspCreateCfg
  let k := kspSetTolerancesCfg k (1 / 100000000)
  let k := kspSetTypeCfg k "cg"
  let k := kspSetFromOptionsCfg o k
  let p := pcFreshCfg
  let p := pcSetFromOptionsCfg o p
  let p := pcSetTypeCfg p "gamg"
  let p := pcGamgSetTypeCfg p "agg"
  let p := pcGamgSetNSmoothsCfg p 1
  (k, p)

/-- The write loop of the `VecScatter` with `INSERT_VALUES` /
`SCATTER_FORWARD` (lines 198-200): for each position `k`,
`x[to[k]] := sol[from[k]]`, proceeding left to right. -/
def scatterWrites (sol : Nat → ℚ) : List Nat → List Nat → List ℚ → List ℚ
  | f :: fs, t :: ts, x => scatterWrites sol fs ts (x.set t (sol f))
  | _, _, x => x

/-- The local sequential vector `x` after the scatter: created with
length `n` (`VecCreateSeq`, line 186, zero-initialised) and filled by
the indexed writes prescribed by `scatter_from` / `scatter_to`. -/
def scatterForward (sol : Nat → ℚ) (sFrom sTo : List Nat) (n : Nat) : List ℚ :=
  scatterWrites sol sFrom sTo (List.replicate n 0)

/-- Return codes of the fallible library calls inside
`Solve_Linear_Systam`.  The source checks (`CHKERRQ`, lines 136-139)
only the two matrix-assembly codes; every other code is discarded by
the driver, so only the two checked fields influence control flow. -/
structure Errs where
  matCreate : Int := 0
  vecCreateMPI : Int := 0
  matAssemblyBegin : Int := 0
  matAssemblyEnd : Int := 0
  kspSolve : Int := 0
  vecScatterBegin : Int := 0
  vecScatterEnd : Int := 0
  deriving DecidableEq

/-- The environment of one `Solve_Linear_Systam` invocation: the MPI
rank and size, the external options database, the library return codes,
the solver outcome (`reason`, `num_iter`, and the contents `sol` of the
distributed `solution_vec` after `KSPSolve`), and the scatter data
prepared by `Setup_System`. -/
structure SolveInputs where
  comm_rank : Nat
  comm_size : Nat
  opts : Opts
  errs : Errs
  reason : Int
  num_iter : Nat
  sol : Nat → ℚ
  scatter_from : List Nat
  scatter_to : List Nat
  num_local_DOFs_on_this_rank : Nat

/-- Everything observable about one `Solve_Linear_Systam` invocation:
the library-call trace, the rank-0 `Execution_Time` log lines, the
rank-0 console output, the returned `PetscErrorCode`, the final
solver/preconditioner configuration, the `MAT_SPD` mark, the local
array `x` after the scatter, and the argument handed to
`Calculate_Internal_Unknowns`. -/
structure SolveResult where
  trace : List Event
  log : List LogLine
  console : List String
  retcode : Int
  ksp : KSPCfg
  pc : PCCfg
  spdSet : Bool
  localArr : List ℚ
  calcInput : Option (List ℚ)

/-- Shallow embedding of `Diffusion<dim>::Solve_Linear_Systam`
(lines 92-230 of `src/A1/main.cpp`), call for call in source order.
`CHKERRQ(assem_error)` at lines 137 and 139 returns the nonzero code
immediately; no other return code is examined. -/
def solveLinearSystam (inp : SolveInputs) : SolveResult :=
  let preTrace : List Event :=
    [.matCreate, .matSetTypeC, .matSetSizes, .matPreallocate,
     .matGetOwnershipRange, .matSetOptionRowOriented, .matSetOptionSPD,
     .vecCreateRHS, .vecSetOptionRHS, .vecDuplicateSolution, .vecDuplicateExact,
     .assembleGlobals, .matAssemblyBegin]
  let preLog : List LogLine :=
    if inp.comm_rank = 0 then
      [.enteringAssembly, .finishedAssembly, .enteringSolver]
    else []
  if inp.errs.matAssemblyBegin = 0 then
    if inp.errs.matAssemblyEnd = 0 then
      let cfg := configureSolver inp.opts
      let localArr :=
        scatterForward inp.sol inp.scatter_from inp.scatter_to
          inp.num_local_DOFs_on_this_rank
      { trace := preTrace ++
          [.matAssemblyEnd,
           .vecAssemblyBeginRHS, .vecAssemblyEndRHS, .vecNormRHS,
           .vecAssemblyBeginExact, .vecAssemblyEndExact,
           .kspCreate, .kspSetTolerances, .kspSetOperators, .kspSetTypeC,
           .kspSetFromOptions, .kspGetPC, .pcSetFromOptions, .pcSetTypeC,
           .pcGamgSetTypeC, .pcGamgSetNSmooths,
           .kspSolve, .kspGetIterationNumber, .kspGetConvergedReason,
           .vecNormSolution, .vecAXPY, .vecNormError,
           .vecCreateSeq, .isCreateFrom, .isCreateTo,
           .vecScatterCreate, .vecScatterBegin, .vecScatterEnd, .vecGetArray,
           .calculateInternalUnknowns,
           .matDestroy, .vecDestroyRHS, .vecDestroyExact, .vecDestroySolution,
           .vecDestroyX],
        log := preLog ++
          (if inp.comm_rank = 0 then
            [.convergedReason inp.reason, .numIterations inp.num_iter,
             .finishedSolver, .enteringLocalSolver, .finishedLocalSolver]
          else []),
        console := if inp.comm_rank = 0 then ["timings"] else [],
        retcode := 0,
        ksp := cfg.1,
        pc := cfg.2,
        spdSet := true,
        localArr := localArr,
        calcInput := some localArr }
    else
      { trace := preTrace ++ [.matAssemblyEnd],
        log := preLog,
        console := [],
        retcode := inp.errs.matAssemblyEnd,
        ksp := kspCreateCfg,
        pc := pcFreshCfg,
        spdSet := true,
        localArr := [],
        calcInput := none }
  else
    { trace := preTrace,
      log := preLog,
      console := [],
      retcode := inp.errs.matAssemblyBegin,
      ksp := kspCreateCfg,
      pc := pcFreshCfg,
      spdSet := true,
      localArr := [],
      calcInput := none }

/-- The complete library-call trace of a `Solve_Linear_Systam`
invocation in which both checked assembly calls succeed. -/
def fullSolveTrace : List Event :=
  [.matCreate, .matSetTypeC, .matSetSizes, .matPreallocate,
   .matGetOwnershipRange, .matSetOptionRowOriented, .matSetOptionSPD,
   .vecCreateRHS, .vecSetOptionRHS, .vecDuplicateSolution, .vecDuplicateExact,
   .assembleGlobals, .matAssemblyBegin, .matAssemblyEnd,
   .vecAssemblyBeginRHS, .vecAssemblyEndRHS, .vecNormRHS,
   .vecAssemblyBeginExact, .vecAssemblyEndExact,
   .kspCreate, .kspSetTolerances, .kspSetOperators, .kspSetTypeC,
   .kspSetFromOptions, .kspGetPC, .pcSetFromOptions, .pcSetTypeC,
   .pcGamgSetTypeC, .pcGamgSetNSmooths,
   .kspSolve, .kspGetIterationNumber, .kspGetConvergedReason,
   .vecNormSolution, .vecAXPY, .vecNormError,
   .vecCreateSeq, .isCreateFrom, .isCreateTo,
   .vecScatterCreate, .vecScatterBegin, .vecScatterEnd, .vecGetArray,
   .calculateInternalUnknowns,
   .matDestroy, .vecDestroyRHS, .vecDestroyExact, .vecDestroySolution,
   .vecDestroyX]

/-- A console message of `Setup_System` (the two refinement progress
lines, printed through `std::cout`, lines 236-250). -/
inductive SetupMsg where
  | enteringRefinement (rank cycle : Nat)
  | exitedRefinement (rank cycle : Nat)
  deriving DecidableEq

/-- A mesh operation invoked by `Setup_System`. -/
inductive SetupEvent where
  | refineGrid (refinement : Nat)
  | countGlobals
  deriving DecidableEq

/-- Observable behaviour of one `Setup_System` call: console messages,
`Execution_Time` log lines, and the mesh operations performed. -/
structure SetupResult where
  console : List SetupMsg
  log : List LogLine
  events : List SetupEvent

/-- Shallow embedding of `Diffusion<dim>::Setup_System`
(lines 233-270 of `src/A1/main.cpp`).  The two refinement progress
messages are guarded by `comm_rank == comm_size` (lines 241 and 249);
the two counter log lines are guarded by `comm_rank == 0`
(lines 259 and 268). -/
def setupSystem (comm_rank comm_size refn_cycle refinement : Nat) : SetupResult :=
  { console :=
      (if comm_rank = comm_size then [.enteringRefinement comm_rank refn_cycle] else []) ++
      (if comm_rank = comm_size then [.exitedRefinement comm_rank refn_cycle] else []),
    log :=
      (if comm_rank = 0 then [.enteringCounter comm_rank refn_cycle] else []) ++
      (if comm_rank = 0 then [.exitedCounter comm_rank refn_cycle] else []),
    events := [.refineGrid refinement, .countGlobals] }

/-- Shallow embedding of `Diffusion<dim>::OutLogger` (lines 54-63):
append `log` (followed by an end of line when `insert_eol` is set) to
the stream, but only on rank 0. -/
def OutLogger (comm_rank : Nat) (logger : List String) (log : String)
    (insert_eol : Bool) : List String :=
  if comm_rank = 0 then
    if insert_eol then logger ++ [log ++ "\n"] else logger ++ [log]
  else logger

/-- One step of the outer convergence-study loop in `main`
(lines 447-456): solver-instance construction and the per-level
Setup / Solve / Visualize calls, tagged with the loop indices. -/
inductive MainEvent where
  | construct (p : Nat)
  | setup (p h : Nat)
  | solve (p h : Nat)
  | visualize (p h : Nat)
  deriving DecidableEq

/-- The inner loop of `main` (lines 450-455): for
`h1 = h_1; h1 < h_2; ++h1` call `Setup_System`, `Solve_Linear_Systam`,
`vtk_visualizer` in that order. -/
def levelLoop (p h1 h2 : Nat) : List MainEvent :=
  if h : h1 < h2 then
    .setup p h1 :: .solve p h1 :: .visualize p h1 :: levelLoop p (h1 + 1) h2
  else []
termination_by h2 - h1
decreasing_by omega

/-- The outer loop of `main` (lines 447-456): for
`p1 = p_1; p1 < p_2; ++p1` construct one `Diffusion<dim>` instance and
run the inner refinement loop. -/
def degreeLoop (p1 p2 h1 h2 : Nat) : List MainEvent :=
  if h : p1 < p2 then
    .construct p1 :: (levelLoop p1 h1 h2 ++ degreeLoop (p1 + 1) p2 h1 h2)
  else []
termination_by p2 - p1
decreasing_by omega

/-- Recognises solver-instance construction events of the outer loop. -/
def isConstruct : MainEvent → Bool
  | .construct _ => true
  | _ => false

/-- The per-level block of the inner loop: `Setup_System`,
`Solve_Linear_Systam`, `vtk_visualizer` for one refinement level. -/
def levelBlock (p h : Nat) : List MainEvent :=
  [.setup p h, .solve p h, .visualize p h]

/-- The first console line printed by the invalid-face-basis branch of
`main` (lines 430-432). -/
def faceBasisErrMsg : String :=
  " HEY! : The face basis type should either be <nodal> or <modal> (default). \n"

/-- The second console line of that branch (line 433): the
threads-available buffer. -/
def threadsMsg : String := "There are 1 threads available.\n"

/-- The face-basis option check of `main` (lines 415-436): when the
`-face_basis` option was supplied, values `"lagrange"` and `"legendre"`
are accepted silently; any other value makes rank 0 print the error
message and the threads buffer; nothing is printed on other ranks. -/
def faceBasisReport (rank : Nat) (face_basis_option : Option String) : List String :=
  match face_basis_option with
  | none => []
  | some s =>
    if s = "lagrange" then []
    else if s = "legendre" then []
    else if rank = 0 then [faceBasisErrMsg, threadsMsg] else []

/-- The `face_basis_type` buffer after option parsing (lines 398-399,
416): initialised to `"legendre"` and overwritten with the supplied
string when the option was found.  It is never read again by `main`
after the validity check. -/
def faceBasisTypeAfterParse (face_basis_option : Option String) : String :=
  match face_basis_option with
  | some s => s
  | none => "legendre"

/-- Observable behaviour of the tail of `main` (lines 415-456): the
face-basis report followed by the outer convergence-study loop.  The
loop does not consult the face-basis option. -/
structure MainResult where
  console : List String
  loopEvents : List MainEvent

/-- The face-basis check and outer loop of `main`, in program order. -/
def mainRun (rank p1 p2 h1 h2 : Nat) (face_basis_option : Option String) : MainResult :=
  { console := faceBasisReport rank face_basis_option,
    loopEvents := degreeLoop p1 p2 h1 h2 }

/-- A concrete rank-0 environment: no injected failures, divergence
stopping reason `-3` (`KSP_DIVERGED_ITS`), synthetic distributed vector
`v[i] = i`, two local DOFs moved by the index pair
`scatter_from = [0, 1]`, `scatter_to = [1, 0]`. -/
def rank0Inp : SolveInputs :=
  { comm_rank := 0, comm_size := 1, opts := {}, errs := {},
    reason := -3, num_iter := 7, sol := fun i => (i : ℚ),
    scatter_from := [0, 1], scatter_to := [1, 0],
    num_local_DOFs_on_this_rank := 2 }

/-- The same environment on rank 1 of a two-rank run. -/
def rank1Inp : SolveInputs :=
  { rank0Inp with comm_rank := 1, comm_size := 2 }

/-- Rank-0 environment with externally supplied `-ksp_type gmres` and
`-pc_type hypre` options. -/
def kspOverrideInp : SolveInputs :=
  { rank0Inp with opts := { ksp_type := some "gmres", pc_type := some "hypre" } }

/-- Rank-0 environment in which `MatCreate` and `KSPSolve` return the
failure codes 5 and 7; the driver never examines either code. -/
def ignoredErrInp : SolveInputs :=
  { rank0Inp with errs := { matCreate := 5, kspSolve := 7 } }

/-- Rank-0 environment in which `MatAssemblyBegin` returns the failure
code 3, which `CHKERRQ` (line 137) propagates. -/
def assemErrInp : SolveInputs :=
  { rank0Inp with errs := { matAssemblyBegin := 3 } }

theorem scatterWrites_length (sol : Nat → ℚ) :
    ∀ (fs ts : List Nat) (x : List ℚ), (scatterWrites sol fs ts x).length = x.length := by
  intro fs
  induction fs with
  | nil => intro ts x; cases ts <;> simp [scatterWrites]
  | cons f fs ih =>
    intro ts x
    cases ts with
    | nil => simp [scatterWrites]
    | cons t ts => simp [scatterWrites, ih, List.length_set]

theorem scatterWrites_getElem_notMem (sol : Nat → ℚ) :
    ∀ (fs ts : List Nat) (x : List ℚ) (j : Nat), (∀ u ∈ ts, u ≠ j) →
      (scatterWrites sol fs ts x)[j]? = x[j]? := by
  intro fs
  induction fs with
  | nil => intro ts x j _; cases ts <;> simp [scatterWrites]
  | cons f fs ih =>
    intro ts x j hj
    cases ts with
    | nil => simp [scatterWrites]
    | cons t ts =>
      have ht : t ≠ j := hj t (by simp)
      rw [scatterWrites, ih ts _ j (fun u hu => hj u (by simp [hu])),
        List.getElem?_set_ne ht]

theorem scatterWrites_getElem_target (sol : Nat → ℚ) :
    ∀ (i : Nat) (fs ts : List Nat) (x : List ℚ) (t s : Nat), ts.Nodup →
      ts[i]? = some t → fs[i]? = some s → t < x.length →
      (scatterWrites sol fs ts x)[t]? = some (sol s) := by
  intro i
  induction i with
  | zero =>
    intro fs ts x t s hnd hts hfs hlt
    cases ts with
    | nil => simp at hts
    | cons t0 ts =>
      cases fs with
      | nil => simp at hfs
      | cons s0 fs =>
        simp at hts hfs
        subst hts; subst hfs
        rw [scatterWrites,
          scatterWrites_getElem_notMem sol fs ts _ t0
            (fun u hu => by
              intro hut
              exact (List.nodup_cons.mp hnd).1 (hut ▸ hu))]
        exact List.getElem?_set_eq_of_lt (sol s0) hlt
  | succ i ih =>
    intro fs ts x t s hnd hts hfs hlt
    cases ts with
    | nil => simp at hts
    | cons t0 ts =>
      cases fs with
      | nil => simp at hfs
      | cons s0 fs =>
        simp at hts hfs
        rw [scatterWrites]
        exact ih fs ts _ t s (List.nodup_cons.mp hnd).2 hts hfs
          (by simpa [List.length_set] using hlt)

theorem scatterForward_length (sol : Nat → ℚ) (sFrom sTo : List Nat) (n : Nat) :
    (scatterForward sol sFrom sTo n).length = n := by
  simp [scatterForward, scatterWrites_length]

theorem scatterForward_getElem (sol : Nat → ℚ) (sFrom sTo : List Nat) (n : Nat)
    (hnd : sTo.Nodup) (i t s : Nat)
    (hts : sTo[i]? = some t) (hfs : sFrom[i]? = some s) (hlt : t < n) :
    (scatterForward sol sFrom sTo n)[t]? = some (sol s) := by
  refine scatterWrites_getElem_target sol i sFrom sTo _ t s hnd hts hfs ?_
  simpa using hlt

theorem solveLinearSystam_trace_full (inp : SolveInputs)
    (e1 : inp.errs.matAssemblyBegin = 0) (e2 : inp.errs.matAssemblyEnd = 0) :
    (solveLinearSystam inp).trace = fullSolveTrace := by
  simp [solveLinearSystam, e1, e2, fullSolveTrace]

theorem levelLoop_eq_flatMap_aux (p : Nat) :
    ∀ (n h1 h2 : Nat), h2 - h1 = n →
      levelLoop p h1 h2 = (List.range' h1 n).flatMap (levelBlock p) := by
  intro n
  induction n with
  | zero =>
    intro h1 h2 hn
    rw [levelLoop]
    have hge : ¬ h1 < h2 := by omega
    simp [hge]
  | succ n ih =>
    intro h1 h2 hn
    rw [levelLoop]
    have hlt : h1 < h2 := by omega
    simp only [hlt, dif_pos, List.range'_succ, List.flatMap_cons]
    simp [levelBlock, ih (h1 + 1) h2 (by omega)]

theorem levelLoop_eq_flatMap (p h1 h2 : Nat) :
    levelLoop p h1 h2 = (List.range' h1 (h2 - h1)).flatMap (levelBlock p) :=
  levelLoop_eq_flatMap_aux p (h2 - h1) h1 h2 rfl

theorem degreeLoop_eq_flatMap_aux (h1 h2 : Nat) :
    ∀ (n p1 p2 : Nat), p2 - p1 = n →
      degreeLoop p1 p2 h1 h2 = (List.range' p1 n).flatMap
        (fun p => MainEvent.construct p :: levelLoop p h1 h2) := by
  intro n
  induction n with
  | zero =>
    intro p1 p2 hn
    rw [degreeLoop]
    have hge : ¬ p1 < p2 := by omega
    simp [hge]
  | succ n ih =>
    intro p1 p2 hn
    rw [degreeLoop]
    have hlt : p1 < p2 := by omega
    simp only [hlt, dif_pos, List.range'_succ, List.flatMap_cons]
    simp [ih (p1 + 1) p2 (by omega)]

theorem degreeLoop_eq_flatMap (p1 p2 h1 h2 : Nat) :
    degreeLoop p1 p2 h1 h2 = (List.range' p1 (p2 - p1)).flatMap
      (fun p => MainEvent.construct p :: levelLoop p h1 h2) :=
  degreeLoop_eq_flatMap_aux h1 h2 (p2 - p1) p1 p2 rfl

theorem filter_isConstruct_levelLoop (p h1 h2 : Nat) :
    (levelLoop p h1 h2).filter isConstruct = [] := by
  rw [levelLoop_eq_flatMap]
  induction List.range' h1 (h2 - h1) with
  | nil => simp
  | cons a l ih => simp [levelBlock, isConstruct, ih]

theorem filter_isConstruct_flatMap (h1 h2 : Nat) (l : List Nat) :
    ((l.flatMap (fun p => MainEvent.construct p :: levelLoop p h1 h2)).filter
      isConstruct).length = l.length := by
  induction l with
  | nil => simp
  | cons a l ih =>
    simp [isConstruct, List.filter_append, filter_isConstruct_levelLoop, ih]

theorem filter_isConstruct_degreeLoop (p1 p2 h1 h2 : Nat) :
    ((degreeLoop p1 p2 h1 h2).filter isConstruct).length = p2 - p1 := by
  rw [degreeLoop_eq_flatMap, filter_isConstruct_flatMap]
  exact List.length_range' p1 1 (p2 - p1)

/-- C7: The outer loop iterates polynomial degrees over the half-open
range [p_1, p_2) and refinement levels over the half-open range
[h_1, h_2); it constructs exactly one solver instance per degree, and
for each refinement level within a degree calls Setup_System, then
Solve_Linear_Systam, then the visualizer, in that order. -/
theorem C7_outer_loop (p1 p2 h1 h2 : Nat) :
    degreeLoop p1 p2 h1 h2 =
      (List.range' p1 (p2 - p1)).flatMap
        (fun p => MainEvent.construct p ::
          (List.range' h1 (h2 - h1)).flatMap (levelBlock p)) ∧
    ((degreeLoop p1 p2 h1 h2).filter isConstruct).length = p2 - p1 := by
  constructor
  · rw [degreeLoop_eq_flatMap]
    simp [levelLoop_eq_flatMap]
  · exact filter_isConstruct_degreeLoop p1 p2 h1 h2

/-- C10: In Setup_System, the "entering refinement" and "has exited
refinement" progress messages are guarded by `comm_rank == comm_size`;
under the precondition `comm_rank < comm_size` this guard holds for no
rank, so the two messages are never printed on any rank of any run. -/
theorem C10_refinement_messages_unreachable
    (comm_rank comm_size refn_cycle refinement : Nat)
    (h : comm_rank < comm_size) :
    (setupSystem comm_rank comm_size refn_cycle refinement).console = [] := by
  have hne : comm_rank ≠ comm_size := Nat.ne_of_lt h
  simp [setupSystem, hne]

theorem C10_refinement_messages_unreachable_witness :
    0 < 2 ∧ (setupSystem 0 2 1 3).console = [] :=
  ⟨by decide, C10_refinement_messages_unreachable 0 2 1 3 (by decide)⟩

/-- C9: When the face-basis-function family option is supplied with any
value other than "legendre" or "lagrange", the error is reported on
rank 0 only and the run continues with behaviour independent of the
supplied value; valid values "legendre" and "lagrange" produce no
error report. -/
theorem C9_face_basis_check (rank p1 p2 h1 h2 : Nat) (s : String) :
    (s ≠ "lagrange" → s ≠ "legendre" →
      (mainRun rank p1 p2 h1 h2 (some s)).console =
        if rank = 0 then [faceBasisErrMsg, threadsMsg] else []) ∧
    (mainRun rank p1 p2 h1 h2 (some "legendre")).console = [] ∧
    (mainRun rank p1 p2 h1 h2 (some "lagrange")).console = [] ∧
    (∀ o o' : Option String,
      (mainRun rank p1 p2 h1 h2 o).loopEvents =
        (mainRun rank p1 p2 h1 h2 o').loopEvents) := by
  refine ⟨?_, ?_, ?_, ?_⟩
  · intro ha hb
    simp [mainRun, faceBasisReport, ha, hb]
  · simp [mainRun, faceBasisReport]
  · simp [mainRun, faceBasisReport]
  · intro o o'
    rfl

theorem C9_face_basis_check_witness :
    ("chebyshev" ≠ "lagrange") ∧ ("chebyshev" ≠ "legendre") ∧
    (mainRun 0 1 2 0 1 (some "chebyshev")).console = [faceBasisErrMsg, threadsMsg] ∧
    (mainRun 1 1 2 0 1 (some "chebyshev")).console = [] := by
  refine ⟨by decide, by decide, ?_, ?_⟩
  · have h := (C9_face_basis_check 0 1 2 0 1 "chebyshev").1 (by decide) (by decide)
    simpa using h
  · have h := (C9_face_basis_check 1 1 2 0 1 "chebyshev").1 (by decide) (by decide)
    simpa using h

/-- C1: After the distributed solve, the scatter step produces a local
dense array of length `num_local_DOFs_on_this_rank` such that
`local[scatter_to[i]] = solution_vec[scatter_from[i]]` for every index
`i` of the index pair, and this array is the one passed to the local
post-solve `Calculate_Internal_Unknowns`. -/
theorem C1_scatter_to_local_array (inp : SolveInputs)
    (e1 : inp.errs.matAssemblyBegin = 0) (e2 : inp.errs.matAssemblyEnd = 0)
    (hnd : inp.scatter_to.Nodup) (i t s : Nat)
    (hts : inp.scatter_to[i]? = some t)
    (hfs : inp.scatter_from[i]? = some s)
    (hlt : t < inp.num_local_DOFs_on_this_rank) :
    (solveLinearSystam inp).localArr.length = inp.num_local_DOFs_on_this_rank ∧
    (solveLinearSystam inp).localArr[t]? = some (inp.sol s) ∧
    (solveLinearSystam inp).calcInput = some ((solveLinearSystam inp).localArr) := by
  have harr : (solveLinearSystam inp).localArr =
      scatterForward inp.sol inp.scatter_from inp.scatter_to
        inp.num_local_DOFs_on_this_rank := by
    simp [solveLinearSystam, e1, e2]
  have hci : (solveLinearSystam inp).calcInput =
      some ((solveLinearSystam inp).localArr) := by
    simp [solveLinearSystam, e1, e2]
  refine ⟨?_, ?_, hci⟩
  · rw [harr]
    exact scatterForward_length inp.sol inp.scatter_from inp.scatter_to
      inp.num_local_DOFs_on_this_rank
  · rw [harr]
    exact scatterForward_getElem inp.sol inp.scatter_from inp.scatter_to
      inp.num_local_DOFs_on_this_rank hnd i t s hts hfs hlt

theorem C1_scatter_to_local_array_witness :
    rank0Inp.errs.matAssemblyBegin = 0 ∧ rank0Inp.errs.matAssemblyEnd = 0 ∧
    rank0Inp.scatter_to.Nodup ∧ rank0Inp.scatter_to[0]? = some 1 ∧
    rank0Inp.scatter_from[0]? = some 0 ∧ 1 < rank0Inp.num_local_DOFs_on_this_rank ∧
    (solveLinearSystam rank0Inp).localArr.length = 2 ∧
    (solveLinearSystam rank0Inp).localArr[1]? = some (rank0Inp.sol 0) := by
  have h := C1_scatter_to_local_array rank0Inp rfl rfl (by decide) 0 1 0 rfl rfl
    (by decide)
  exact ⟨rfl, rfl, by decide, rfl, rfl, by decide, h.1, h.2.1⟩

/-- C4: In every invocation of Solve_Linear_Systam running under the
default options, the iterative solver is configured as conjugate
gradients with relative-residual tolerance 1e-8, the matrix is marked
symmetric positive definite, and the preconditioner is algebraic
multigrid (GAMG, aggregation flavour, one smoothing step). -/
theorem C4_default_configuration (inp : SolveInputs)
    (e1 : inp.errs.matAssemblyBegin = 0) (e2 : inp.errs.matAssemblyEnd = 0)
    (hk : inp.opts.ksp_type = none) (hr : inp.opts.ksp_rtol = none) :
    (solveLinearSystam inp).ksp.ktype = some "cg" ∧
    (solveLinearSystam inp).ksp.rtol = some (1 / 100000000) ∧
    (solveLinearSystam inp).spdSet = true ∧
    (solveLinearSystam inp).pc.ptype = some "gamg" ∧
    (solveLinearSystam inp).pc.gamgAggType = some "agg" ∧
    (solveLinearSystam inp).pc.gamgNSmooths = some 1 := by
  simp [solveLinearSystam, e1, e2, configureSolver, kspCreateCfg,
    kspSetTolerancesCfg, kspSetTypeCfg, kspSetFromOptionsCfg, pcFreshCfg,
    pcSetFromOptionsCfg, pcSetTypeCfg, pcGamgSetTypeCfg, pcGamgSetNSmoothsCfg,
    hk, hr]

theorem C4_default_configuration_witness :
    rank0Inp.errs.matAssemblyBegin = 0 ∧ rank0Inp.errs.matAssemblyEnd = 0 ∧
    rank0Inp.opts.ksp_type = none ∧ rank0Inp.opts.ksp_rtol = none ∧
    (solveLinearSystam rank0Inp).ksp.ktype = some "cg" ∧
    (solveLinearSystam rank0Inp).ksp.rtol = some (1 / 100000000) ∧
    (solveLinearSystam rank0Inp).spdSet = true ∧
    (solveLinearSystam rank0Inp).pc.ptype = some "gamg" := by
  have h := C4_default_configuration rank0Inp rfl rfl rfl rfl
  exact ⟨rfl, rfl, rfl, rfl, h.1, h.2.1, h.2.2.1, h.2.2.2.1⟩

/-- C5: For every stopping reason the Krylov solver returns (including
non-converged reasons), Solve_Linear_Systam records the reason and the
iteration count in the rank-0 log and then unconditionally proceeds to
the scatter and to Calculate_Internal_Unknowns; a non-converged solve
never aborts the pipeline (the return code stays 0). -/
theorem C5_nonconvergence_not_fatal (inp : SolveInputs)
    (e1 : inp.errs.matAssemblyBegin = 0) (e2 : inp.errs.matAssemblyEnd = 0) :
    (inp.comm_rank = 0 →
      LogLine.convergedReason inp.reason ∈ (solveLinearSystam inp).log ∧
      LogLine.numIterations inp.num_iter ∈ (solveLinearSystam inp).log) ∧
    Event.vecScatterBegin ∈ (solveLinearSystam inp).trace ∧
    Event.vecScatterEnd ∈ (solveLinearSystam inp).trace ∧
    Event.calculateInternalUnknowns ∈ (solveLinearSystam inp).trace ∧
    (solveLinearSystam inp).trace.indexOf Event.kspSolve <
      (solveLinearSystam inp).trace.indexOf Event.vecScatterBegin ∧
    (solveLinearSystam inp).trace.indexOf Event.vecScatterEnd <
      (solveLinearSystam inp).trace.indexOf Event.calculateInternalUnknowns ∧
    (solveLinearSystam inp).retcode = 0 := by
  have htr := solveLinearSystam_trace_full inp e1 e2
  refine ⟨?_, ?_, ?_, ?_, ?_, ?_, ?_⟩
  · intro hrank
    constructor <;> simp [solveLinearSystam, e1, e2, hrank]
  · rw [htr]; decide
  · rw [htr]; decide
  · rw [htr]; decide
  · rw [htr]; decide
  · rw [htr]; decide
  · simp [solveLinearSystam, e1, e2]

theorem C5_nonconvergence_not_fatal_witness :
    rank0Inp.errs.matAssemblyBegin = 0 ∧ rank0Inp.errs.matAssemblyEnd = 0 ∧
    rank0Inp.comm_rank = 0 ∧ rank0Inp.reason = -3 ∧
    LogLine.convergedReason (-3) ∈ (solveLinearSystam rank0Inp).log ∧
    Event.calculateInternalUnknowns ∈ (solveLinearSystam rank0Inp).trace ∧
    (solveLinearSystam rank0Inp).retcode = 0 := by
  have h := C5_nonconvergence_not_fatal rank0Inp rfl rfl
  exact ⟨rfl, rfl, rfl, rfl, (h.1 rfl).1, h.2.2.2.1, h.2.2.2.2.2.2⟩

/-- C6: In every invocation, the global system objects (global_mat,
RHS_vec, solution_vec, exact_solution) are created at the start of the
Solve_Linear_Systam call (before assembly and solve) and destroyed
before it returns (after the local post-solve), each exactly once, so
no global system object survives across outer-loop iterations. -/
theorem C6_system_object_lifecycle (inp : SolveInputs)
    (e1 : inp.errs.matAssemblyBegin = 0) (e2 : inp.errs.matAssemblyEnd = 0) :
    ((solveLinearSystam inp).trace.count Event.matCreate = 1 ∧
     (solveLinearSystam inp).trace.count Event.matDestroy = 1 ∧
     (solveLinearSystam inp).trace.indexOf Event.matCreate <
       (solveLinearSystam inp).trace.indexOf Event.matDestroy) ∧
    ((solveLinearSystam inp).trace.count Event.vecCreateRHS = 1 ∧
     (solveLinearSystam inp).trace.count Event.vecDestroyRHS = 1 ∧
     (solveLinearSystam inp).trace.indexOf Event.vecCreateRHS <
       (solveLinearSystam inp).trace.indexOf Event.vecDestroyRHS) ∧
    ((solveLinearSystam inp).trace.count Event.vecDuplicateSolution = 1 ∧
     (solveLinearSystam inp).trace.count Event.vecDestroySolution = 1 ∧
     (solveLinearSystam inp).trace.indexOf Event.vecDuplicateSolution <
       (solveLinearSystam inp).trace.indexOf Event.vecDestroySolution) ∧
    ((solveLinearSystam inp).trace.count Event.vecDuplicateExact = 1 ∧
     (solveLinearSystam inp).trace.count Event.vecDestroyExact = 1 ∧
     (solveLinearSystam inp).trace.indexOf Event.vecDuplicateExact <
       (solveLinearSystam inp).trace.indexOf Event.vecDestroyExact) ∧
    ((solveLinearSystam inp).trace.indexOf Event.vecDuplicateExact <
       (solveLinearSystam inp).trace.indexOf Event.assembleGlobals ∧
     (solveLinearSystam inp).trace.indexOf Event.calculateInternalUnknowns <
       (solveLinearSystam inp).trace.indexOf Event.matDestroy) := by
  rw [solveLinearSystam_trace_full inp e1 e2]
  decide

theorem C6_system_object_lifecycle_witness :
    rank0Inp.errs.matAssemblyBegin = 0 ∧ rank0Inp.errs.matAssemblyEnd = 0 ∧
    (solveLinearSystam rank0Inp).trace.count Event.matCreate = 1 ∧
    (solveLinearSystam rank0Inp).trace.indexOf Event.matCreate <
      (solveLinearSystam rank0Inp).trace.indexOf Event.matDestroy := by
  have h := C6_system_object_lifecycle rank0Inp rfl rfl
  exact ⟨rfl, rfl, h.1.1, h.1.2.2⟩

/-- C8: For every rank other than rank 0 (with ranks numbered below the
communicator size), no user-facing reporting is emitted: OutLogger
writes nothing, and none of the execution-time-log milestone lines,
converged-reason/iteration-count lines, or timing console output is
produced on a non-zero rank, in Solve_Linear_Systam or Setup_System. -/
theorem C8_nonzero_rank_silent (inp : SolveInputs) (size : Nat)
    (hr : inp.comm_rank ≠ 0) (hs : inp.comm_rank < size)
    (logger : List String) (msg : String) (eol : Bool) (cyc ref : Nat) :
    OutLogger inp.comm_rank logger msg eol = logger ∧
    (solveLinearSystam inp).log = [] ∧
    (solveLinearSystam inp).console = [] ∧
    (setupSystem inp.comm_rank size cyc ref).console = [] ∧
    (setupSystem inp.comm_rank size cyc ref).log = [] := by
  have hne : inp.comm_rank ≠ size := Nat.ne_of_lt hs
  refine ⟨?_, ?_, ?_, ?_, ?_⟩
  · simp [OutLogger, hr]
  · by_cases a : inp.errs.matAssemblyBegin = 0 <;>
      by_cases b : inp.errs.matAssemblyEnd = 0 <;>
      simp [solveLinearSystam, a, b, hr]
  · by_cases a : inp.errs.matAssemblyBegin = 0 <;>
      by_cases b : inp.errs.matAssemblyEnd = 0 <;>
      simp [solveLinearSystam, a, b, hr]
  · simp [setupSystem, hne]
  · simp [setupSystem, hr]

theorem C8_nonzero_rank_silent_witness :
    rank1Inp.comm_rank ≠ 0 ∧ rank1Inp.comm_rank < 2 ∧
    OutLogger rank1Inp.comm_rank [] "Entering vtk_visualizer" true = [] ∧
    (solveLinearSystam rank1Inp).log = [] ∧
    (solveLinearSystam rank1Inp).console = [] ∧
    (setupSystem rank1Inp.comm_rank 2 0 0).console = [] := by
  have h := C8_nonzero_rank_silent rank1Inp 2 (by decide) (by decide) []
    "Entering vtk_visualizer" true 0 0
  exact ⟨by decide, by decide, h.1, h.2.1, h.2.2.1, h.2.2.2.1⟩

/-- C2 counterexample: with externally supplied options
`-ksp_type gmres -pc_type hypre`, the solve runs with the solver type
overridden as requested, but the preconditioner type is `gamg`, not the
externally chosen `hypre` — `PCSetType(PCGAMG)` (line 161) runs after
`PCSetFromOptions` (line 159) and overwrites the external choice, so
the claim that both types are externally overridable is false. -/
theorem C2_counterexample :
    kspOverrideInp.opts.ksp_type = some "gmres" ∧
    kspOverrideInp.opts.pc_type = some "hypre" ∧
    (solveLinearSystam kspOverrideInp).ksp.ktype = some "gmres" ∧
    (solveLinearSystam kspOverrideInp).pc.ptype = some "gamg" ∧
    (solveLinearSystam kspOverrideInp).pc.ptype ≠ kspOverrideInp.opts.pc_type := by
  refine ⟨rfl, rfl, ?_, ?_, ?_⟩ <;> decide

/-- C2 amended: the Krylov solver type is overridable via external
configuration (an externally supplied type wins over the compiled-in
`cg` default), but the preconditioner type is not: after option
processing the driver unconditionally resets it to `gamg`. -/
theorem C2_amended_overridability (inp : SolveInputs)
    (e1 : inp.errs.matAssemblyBegin = 0) (e2 : inp.errs.matAssemblyEnd = 0) :
    (solveLinearSystam inp).ksp.ktype = some (inp.opts.ksp_type.getD "cg") ∧
    (solveLinearSystam inp).pc.ptype = some "gamg" := by
  cases hk : inp.opts.ksp_type <;>
    simp [solveLinearSystam, e1, e2, configureSolver, kspCreateCfg,
      kspSetTolerancesCfg, kspSetTypeCfg, kspSetFromOptionsCfg, pcFreshCfg,
      pcSetFromOptionsCfg, pcSetTypeCfg, pcGamgSetTypeCfg,
      pcGamgSetNSmoothsCfg, hk]

theorem C2_amended_overridability_witness :
    kspOverrideInp.errs.matAssemblyBegin = 0 ∧
    kspOverrideInp.errs.matAssemblyEnd = 0 ∧
    (solveLinearSystam kspOverrideInp).ksp.ktype = some "gmres" ∧
    (solveLinearSystam kspOverrideInp).pc.ptype = some "gamg" := by
  have h := C2_amended_overridability kspOverrideInp rfl rfl
  exact ⟨rfl, rfl, h.1, h.2⟩

/-- C3 counterexample: `MatCreate` and `KSPSolve` return the failure
codes 5 and 7, yet the run does not abort: the driver continues through
the scatter and the local post-solve and returns 0, because only the
two matrix-assembly codes are checked by `CHKERRQ` — so the claim that
every failure code aborts the run with a propagated error is false. -/
theorem C3_counterexample :
    ignoredErrInp.errs.matCreate = 5 ∧ ignoredErrInp.errs.kspSolve = 7 ∧
    (solveLinearSystam ignoredErrInp).retcode = 0 ∧
    Event.calculateInternalUnknowns ∈ (solveLinearSystam ignoredErrInp).trace ∧
    Event.vecDestroyX ∈ (solveLinearSystam ignoredErrInp).trace := by
  have htr := solveLinearSystam_trace_full ignoredErrInp rfl rfl
  refine ⟨rfl, rfl, ?_, ?_, ?_⟩
  · decide
  · rw [htr]; decide
  · rw [htr]; decide

/-- C3 amended: only the two matrix-assembly finalization calls
propagate their failure codes — a nonzero `MatAssemblyBegin` or
`MatAssemblyEnd` code aborts the invocation with that code before the
solve, scatter, and local post-solve; every other library return code
is discarded and the invocation runs to completion returning 0. -/
theorem C3_amended_propagation (inp : SolveInputs) :
    (inp.errs.matAssemblyBegin ≠ 0 →
      (solveLinearSystam inp).retcode = inp.errs.matAssemblyBegin ∧
      Event.kspSolve ∉ (solveLinearSystam inp).trace ∧
      Event.calculateInternalUnknowns ∉ (solveLinearSystam inp).trace) ∧
    (inp.errs.matAssemblyBegin = 0 → inp.errs.matAssemblyEnd ≠ 0 →
      (solveLinearSystam inp).retcode = inp.errs.matAssemblyEnd ∧
      Event.kspSolve ∉ (solveLinearSystam inp).trace ∧
      Event.calculateInternalUnknowns ∉ (solveLinearSystam inp).trace) ∧
    (inp.errs.matAssemblyBegin = 0 → inp.errs.matAssemblyEnd = 0 →
      (solveLinearSystam inp).retcode = 0 ∧
      Event.calculateInternalUnknowns ∈ (solveLinearSystam inp).trace) := by
  refine ⟨?_, ?_, ?_⟩
  · intro h
    refine ⟨?_, ?_, ?_⟩ <;> simp [solveLinearSystam, h]
  · intro h1 h2
    refine ⟨?_, ?_, ?_⟩ <;> simp [solveLinearSystam, h1, h2]
  · intro h1 h2
    refine ⟨?_, ?_⟩
    · simp [solveLinearSystam, h1, h2]
    · rw [solveLinearSystam_trace_full inp h1 h2]; decide

theorem C3_amended_propagation_witness :
    assemErrInp.errs.matAssemblyBegin = 3 ∧
    (solveLinearSystam assemErrInp).retcode = 3 ∧
    Event.kspSolve ∉ (solveLinearSystam assemErrInp).trace ∧
    Event.calculateInternalUnknowns ∉ (solveLinearSystam assemErrInp).trace := by
  have h := (C3_amended_propagation assemErrInp).1 (by decide)
  exact ⟨rfl, h.1, h.2.1, h.2.2⟩
